import Mathlib

/-!
# Verification of the vue-router history transition engine

Shallow embedding of `src/history/base.js` (the `History` class:
`transitionTo`, `confirmTransition`, `resolveQueue`, guard extraction) and
`src/util/resolve-components.js` (`resolveAsyncComponents`, `flatMapComponents`,
`flatten`, `once`).

Modelling conventions:
* JavaScript objects with stable identity (route records, routes) are plain
  structures with decidable equality; structural equality models the `===`
  reference comparison, under the source invariant that record identity is
  stable across repeated matches (each distinct object carries a distinct tag).
* User-supplied guard functions are opaque: a guard is a natural-number tag,
  and an environment `env : Nat → Route → Route → GuardBehavior` gives the
  (synchronous) behaviour of each guard when invoked with `(to, from, next)`:
  which value it passes to `next`, or which value it throws, or that it
  suspends without calling `next`.
* Side effects (calling `ensureURL`, `push`, `replace`, user callbacks,
  `console.error`, committing via `onComplete`) are recorded in an event
  trace; `this.current` is only ever mutated by `updateRoute`, which is
  reached exactly through the `Event.complete` path of `transitionTo`.
* The field `this.pending` is written by `confirmTransition` on entry and by
  concurrent navigations; reads of `this.pending` are modelled by an
  observation function `pendingAt : Nat → Option Route` giving the value seen
  at the k-th pending-check of the pipeline (a later navigation reassigning
  `pending` makes `pendingAt` differ from the in-flight route from some index
  on).
-/

namespace VueRouter

/-- A JavaScript runtime value, as far as the guard `next` callback protocol
inspects values: `next(false)`, `next(err)`, `next('/x')`,
`next({path|name, replace})`, functions (captured by `beforeRouteEnter`
wrappers), and everything else. `locObj` is an object whose `path` and `name`
properties are the given optional strings and whose `replace` property is the
given boolean. -/
inductive JSValue where
  | undef
  | nullv
  | boolean (b : Bool)
  | num (n : Int)
  | str (s : String)
  | func (tag : Nat)
  | error (tag : Nat)
  | locObj (path name : Option String) (replaceFlag : Bool)
  | obj (tag : Nat)
deriving DecidableEq

/-- Synchronous behaviour of one guard invocation `hook(route, current, next)`:
it either calls `next` with a value, throws a value, or suspends without ever
calling `next` during this run. -/
inductive GuardBehavior where
  | next (v : JSValue)
  | throwVal (v : JSValue)
  | suspend
deriving DecidableEq

/-- Guards attached to one view binding for one phase: `def.options[name]` is
`undefined`, a single function, or an array of functions
(`extractGuards`, `src/history/base.js`). -/
inductive GuardSpec where
  | noGuard
  | one (g : Nat)
  | many (gs : List Nat)
deriving DecidableEq

/-- A resolved view definition: its per-phase navigation guards
(`beforeRouteLeave` / `beforeRouteUpdate` / `beforeRouteEnter` entries of
`def.options`). -/
structure ComponentDef where
  beforeRouteLeave : GuardSpec
  beforeRouteUpdate : GuardSpec
  beforeRouteEnter : GuardSpec
deriving DecidableEq

/-- One node of a matched route chain (`RouteRecord`): a distinguishing tag
(object identity), the ordered view-slot map `components`
(slot name → resolved definition, in `Object.keys` order), the live instance
map `instances` (slot name → instance tag, present iff mounted), the queued
post-enter callbacks `enteredCbs` (slot name → callback tags), and the
per-record `beforeEnter` configuration guard. -/
structure RouteRecord where
  tag : Nat
  components : List (String × ComponentDef)
  instances : List (String × Nat)
  enteredCbs : List (String × List Nat)
  beforeEnter : Option Nat
deriving DecidableEq

/-- A fully resolved navigation target (`Route`): `path`, `query`, `hash`,
`params`, optional `name`, and the ordered `matched` chain of records. -/
structure Route where
  path : String
  query : List (String × String)
  hash : String
  params : List (String × String)
  name : Option String
  matched : List RouteRecord
deriving DecidableEq

/-- Modelled from the spec: the sentinel start route standing for "nowhere"
(`START` of `src/util/route.js`, which is not among the provided sources; §3
of the spec: `current` is "initialized to a sentinel start route"). -/
def START : Route :=
  { path := "/", query := [], hash := "", params := [], name := Option.none,
    matched := [] }

/-! ## Transition diff (`resolveQueue`, `src/history/base.js` lines 295-315) -/

/-- First index at which the two chains hold non-identical records: the loop
`for (i = 0; i < max; i++) if (current[i] !== next[i]) break` of
`resolveQueue`.  When one chain is a strict prefix of the other the loop stops
at the shorter length (a record is never `===` to `undefined`); when both
chains are exhausted the loop runs to `max`. -/
def divergeIdx : List RouteRecord → List RouteRecord → Nat
  | a :: as, b :: bs => if a = b then divergeIdx as bs + 1 else 0
  | _, _ => 0

/-- Result of the transition diff. -/
structure RQ where
  updated : List RouteRecord
  activated : List RouteRecord
  deactivated : List RouteRecord
deriving DecidableEq

/-- `resolveQueue`: split each chain at the first divergence index:
`updated = next[0..i)`, `activated = next[i..)`, `deactivated = current[i..)`. -/
def resolveQueue (current next : List RouteRecord) : RQ :=
  let i := divergeIdx current next
  { updated := next.take i, activated := next.drop i, deactivated := current.drop i }

theorem divergeIdx_self (A : List RouteRecord) : divergeIdx A A = A.length := by
  induction A with
  | nil => rfl
  | cons a as ih => simp [divergeIdx, ih]

theorem take_divergeIdx_eq (A B : List RouteRecord) :
    A.take (divergeIdx A B) = B.take (divergeIdx A B) := by
  induction A generalizing B with
  | nil => cases B <;> simp [divergeIdx]
  | cons a as ih =>
    cases B with
    | nil => simp [divergeIdx]
    | cons b bs =>
      by_cases hab : a = b
      · simp [divergeIdx, hab, ih]
      · simp [divergeIdx, hab]

theorem get?_divergeIdx (A B : List RouteRecord) :
    A.get? (divergeIdx A B) = B.get? (divergeIdx A B) ↔
      (A.length ≤ divergeIdx A B ∧ B.length ≤ divergeIdx A B) := by
  induction A generalizing B with
  | nil =>
    cases B with
    | nil => simp [divergeIdx]
    | cons b bs => simp [divergeIdx]
  | cons a as ih =>
    cases B with
    | nil => simp [divergeIdx]
    | cons b bs =>
      by_cases hab : a = b
      · simpa [divergeIdx, hab, Nat.succ_le_succ_iff] using ih bs
      · simp [divergeIdx, hab]

/-- C6: the transition diff scans from index 0 to the first index `i` at which
the records are not reference-equal (`updated` is exactly the common prefix:
the chains agree below `i`, and at `i` they agree only when both chains are
already exhausted); it returns `updated = B[0..i)`, `activated = B[i..)`,
`deactivated = A[i..)`; `Diff(A,A)` yields `updated = A` with empty
`activated` and `deactivated`; `updated ++ activated` reconstitutes `B` and
`updated ++ deactivated` reconstitutes `A`. -/
theorem resolveQueue_diff_spec (A B : List RouteRecord) :
    (resolveQueue A B).updated ++ (resolveQueue A B).activated = B ∧
    (resolveQueue A B).updated ++ (resolveQueue A B).deactivated = A ∧
    resolveQueue A A = { updated := A, activated := [], deactivated := [] } ∧
    (resolveQueue A B).updated = A.take (divergeIdx A B) ∧
    (resolveQueue A B).updated = B.take (divergeIdx A B) ∧
    (resolveQueue A B).activated = B.drop (divergeIdx A B) ∧
    (resolveQueue A B).deactivated = A.drop (divergeIdx A B) ∧
    (A.get? (divergeIdx A B) = B.get? (divergeIdx A B) ↔
      (A.length ≤ divergeIdx A B ∧ B.length ≤ divergeIdx A B)) := by
  refine ⟨?_, ?_, ?_, ?_, ?_, ?_, ?_, get?_divergeIdx A B⟩
  · simp [resolveQueue]
  · simp [resolveQueue, ← take_divergeIdx_eq A B]
  · simp [resolveQueue, divergeIdx_self]
  · simp [resolveQueue, take_divergeIdx_eq A B]
  · simp [resolveQueue]
  · simp [resolveQueue]
  · simp [resolveQueue]

/-! ## Guard extraction (`extractGuards` and friends, `src/history/base.js`
lines 317-424, using `flatMapComponents`/`flatten` from
`src/util/resolve-components.js` lines 85-103) -/

/-- Guard phase name passed to `extractGuards`. -/
inductive Phase where
  | leave
  | update
  | enter
deriving DecidableEq

/-- `extractGuard(def, key)`: look up the phase entry of the definition
(`def.options[key]` after extending). -/
def extractGuard (c : ComponentDef) : Phase → GuardSpec
  | Phase.leave => c.beforeRouteLeave
  | Phase.update => c.beforeRouteUpdate
  | Phase.enter => c.beforeRouteEnter

/-- One element of the array built by `flatMapComponents`: the value
`fn(def, instance, match, key)` is `undefined` (no guard for this phase), a
single bound guard (possibly `undefined` when `bindGuard` drops it), or an
array of bound guards.  `flatten` spreads array elements one level and keeps
non-array elements, `undefined` included. -/
inductive Extracted where
  | single (g : Option Nat)
  | arr (gs : List (Option Nat))
deriving DecidableEq

/-- `flatten(arr)`, i.e. `Array.prototype.concat.apply([], arr)`: one-level
flattening that spreads arrays and keeps every non-array element. -/
def flattenExtracted : List Extracted → List (Option Nat)
  | [] => []
  | Extracted.single o :: rest => o :: flattenExtracted rest
  | Extracted.arr gs :: rest => gs ++ flattenExtracted rest

/-- `flatMapComponents(records, fn)`: for every record, for every view slot of
the record in key order, apply `fn(def, instance, match, key)`; the per-record
lists are flattened one level. -/
def flatMapComponents (matched : List RouteRecord)
    (fn : ComponentDef → Option Nat → RouteRecord → String → Extracted) :
    List Extracted :=
  (matched.map fun m =>
    m.components.map fun kc => fn kc.2 (m.instances.lookup kc.1) m kc.1).flatten

/-- Body of the `fn` closure of `extractGuards`: look up the phase guard(s) of
the definition and bind each through `bind`; with no guard the closure
returns `undefined`. -/
def extractFn (phase : Phase) (bind : Nat → Option Nat → RouteRecord → String → Option Nat)
    (c : ComponentDef) (inst : Option Nat) (m : RouteRecord) (key : String) :
    Extracted :=
  match extractGuard c phase with
  | GuardSpec.noGuard => Extracted.single Option.none
  | GuardSpec.one g => Extracted.single (bind g inst m key)
  | GuardSpec.many gs => Extracted.arr (gs.map fun g => bind g inst m key)

/-- `extractGuards(records, name, bind, reverse)`: collect the per-slot
entries, optionally reverse the entry list (before the final flatten), then
flatten. -/
def extractGuards (records : List RouteRecord) (phase : Phase)
    (bind : Nat → Option Nat → RouteRecord → String → Option Nat)
    (reverse : Bool) : List (Option Nat) :=
  let guards := flatMapComponents records (extractFn phase bind)
  flattenExtracted (if reverse then guards.reverse else guards)

/-- `bindGuard(guard, instance)`: a guard bound to a live instance keeps its
behaviour (the binding only fixes `this`); with no instance the guard is
dropped (`undefined`). -/
def bindGuard (g : Nat) (inst : Option Nat) (_m : RouteRecord) (_key : String) :
    Option Nat :=
  if inst.isSome then Option.some g else Option.none

/-- `extractLeaveGuards(deactivated)`: `beforeRouteLeave` guards, bound, with
the entry list reversed. -/
def extractLeaveGuards (deactivated : List RouteRecord) : List (Option Nat) :=
  extractGuards deactivated Phase.leave bindGuard true

/-- `extractUpdateHooks(updated)`: `beforeRouteUpdate` guards, bound, in
natural order. -/
def extractUpdateHooks (updated : List RouteRecord) : List (Option Nat) :=
  extractGuards updated Phase.update bindGuard false

/-- `extractEnterGuards(activated)`: `beforeRouteEnter` guards wrapped by
`bindEnterGuard` (no instance check; the wrapper forwards the guard's
`next` value unchanged, so the wrapped guard keeps the tag and behaviour of
the wrapped one — the `enteredCbs` bookkeeping of the wrapper is modelled by
`enterGuardCb` below). -/
def extractEnterGuards (activated : List RouteRecord) : List (Option Nat) :=
  extractGuards activated Phase.enter (fun g _ _ _ => Option.some g) false

/-! ## The `beforeRouteEnter` wrapper (`bindEnterGuard`,
`src/history/base.js` lines 407-424) -/

/-- `match.enteredCbs[key].push(cb)` after `if (!match.enteredCbs[key])
match.enteredCbs[key] = []`: append to the slot's list, creating it first when
absent. -/
def pushEnteredCb : List (String × List Nat) → String → Nat → List (String × List Nat)
  | [], key, t => [(key, [t])]
  | (k, ts) :: rest, key, t =>
    if k = key then (k, ts ++ [t]) :: rest else (k, ts) :: pushEnteredCb rest key t

/-- The callback `cb => { if (typeof cb === 'function') { ... push cb ... }
next(cb) }` that `bindEnterGuard` passes to the wrapped guard in place of
`next`: it returns the updated record and the value forwarded to the
pipeline's `next`. -/
def enterGuardCb (m : RouteRecord) (key : String) (cb : JSValue) :
    RouteRecord × JSValue :=
  match cb with
  | JSValue.func t =>
    ({ m with enteredCbs := pushEnteredCb m.enteredCbs key t }, cb)
  | _ => (m, cb)

/-! ## Navigation failures and the `abort` closure
(`src/history/base.js` lines 142-157) -/

/-- The four navigation-failure kinds (`NavigationFailureType`). -/
inductive NavFailureType where
  | redirected
  | aborted
  | cancelled
  | duplicated
deriving DecidableEq

/-- A value passed to `abort` / `onAbort`: a created navigation failure
(carrying `from` and `to`), an `Error` value from user code, the `TypeError`
raised by reading `to.path` on `null`, or any other thrown value. -/
inductive AbortErr where
  | navFailure (t : NavFailureType) (fromRoute toRoute : Route)
  | jsError (tag : Nat)
  | typeError
  | thrownOther (v : JSValue)
deriving DecidableEq

/-- Modelled from the spec: `isNavigationFailure(err)` of `src/util/errors.js`
(not among the provided sources) recognises exactly the navigation-failure
values created by the four `createNavigation*Error` constructors (§7 of the
spec: the four kinds form the class of navigation failures). -/
def isNavigationFailureB : AbortErr → Bool
  | AbortErr.navFailure _ _ _ => true
  | _ => false

/-- Modelled from the spec: `isNavigationFailure(err, type)` with an explicit
kind recognises a navigation failure of exactly that kind. -/
def isNavFailureTypeB : AbortErr → NavFailureType → Bool
  | AbortErr.navFailure t _ _, t2 => t = t2
  | _, _ => false

/-- Modelled from the spec: `isError(err)` of `src/util/errors.js` (not among
the provided sources) recognises `Error` values; navigation failures are
themselves `Error` objects, as is the raised `TypeError`. -/
def isErrorA : AbortErr → Bool
  | AbortErr.navFailure _ _ _ => true
  | AbortErr.jsError _ => true
  | AbortErr.typeError => true
  | AbortErr.thrownOther v =>
    match v with
    | JSValue.error _ => true
    | _ => false

/-- JavaScript truthiness of a value, used by the `if (err && !this.ready)`
test of `transitionTo`. -/
def jsTruthy : JSValue → Bool
  | JSValue.undef => false
  | JSValue.nullv => false
  | JSValue.boolean b => b
  | JSValue.num n => n ≠ 0
  | JSValue.str s => s ≠ ""
  | _ => true

/-- Truthiness of an abort value: failure objects and `Error`s are objects,
hence truthy; an arbitrary thrown value is truthy per `jsTruthy`. -/
def errTruthy : AbortErr → Bool
  | AbortErr.thrownOther v => jsTruthy v
  | _ => true

/-- Convert a thrown JavaScript value to an abort value: `Error` values keep
their identity, anything else is delivered as-is. -/
def mkThrown : JSValue → AbortErr
  | JSValue.error t => AbortErr.jsError t
  | v => AbortErr.thrownOther v

/-- Observable side effects of the engine, in order of occurrence. -/
inductive Event where
  | invoke (g : Nat)
  | ensureURL (forcePush : Bool)
  | callErrorCb (cb : Nat) (err : AbortErr)
  | consoleError (err : AbortErr)
  | onAbort (err : AbortErr)
  | push (v : JSValue)
  | replace (v : JSValue)
  | complete (r : Route)
  | readyCb (cb : Nat) (r : Route)
  | readyErrorCb (cb : Nat) (err : AbortErr)
  | callCbNoArgs (cb : Nat)
deriving DecidableEq

/-- The `abort` closure of `confirmTransition`: a value that is an `Error` but
not a navigation failure is broadcast to every registered error callback (in
registration order), or logged to the console when none are registered; then
the triggering call's `onAbort` receives the value. -/
def abortEvents (errorCbs : List Nat) (err : AbortErr) : List Event :=
  (if !isNavigationFailureB err && isErrorA err then
    if errorCbs.length ≠ 0 then errorCbs.map fun c => Event.callErrorCb c err
    else [Event.consoleError err]
  else []) ++ [Event.onAbort err]

theorem complete_not_mem_abortEvents (cbs : List Nat) (err : AbortErr) (r : Route) :
    Event.complete r ∉ abortEvents cbs err := by
  unfold abortEvents
  by_cases h1 : (!isNavigationFailureB err && isErrorA err) = true
  · by_cases h2 : cbs.length ≠ 0 <;> simp [h1, h2]
  · simp [h1]

/-! ## The per-step iterator (`src/history/base.js` lines 192-226) -/

/-- Modelled from the spec: `isError(to)` of `src/util/errors.js` (not among
the provided sources) recognises `Error` values (§3 of the spec: `next` may
receive "an `Error` (abort with error)"). -/
def isErrorV : JSValue → Bool
  | JSValue.error _ => true
  | _ => false

/-- The redirect test of the `next` callback:
`typeof to === 'string' || (typeof to === 'object' && (typeof to.path ===
'string' || typeof to.name === 'string'))`, restricted to values on which the
property reads do not throw (`null` is handled separately: its `typeof` is
`'object'` but reading `to.path` raises a `TypeError`). -/
def isRedirectV : JSValue → Bool
  | JSValue.str _ => true
  | JSValue.locObj p n _ => p.isSome || n.isSome
  | _ => false

/-- `typeof to === 'object' && to.replace` chooses `replace` over `push` for a
redirect target. -/
def redirectEvent : JSValue → Event
  | JSValue.locObj p n true => Event.replace (JSValue.locObj p n true)
  | v => Event.push v

/-- The `(to) => { ... }` callback that the iterator passes to each guard as
`next` (`src/history/base.js` lines 198-221): returns the emitted events and
whether the pipeline proceeds to the following guard.  `next(false)` forces
the URL back and aborts as `aborted`; `next(err)` with an `Error` forces the
URL back and aborts with that error; a string or an object carrying a string
`path` or `name` aborts as `redirected` and then issues exactly one
`push`/`replace`; `next(null)` reaches the `typeof to === 'object'` branch
where reading `to.path` raises a `TypeError` that the per-step `try`/`catch`
turns into an abort; every other value proceeds. -/
def dispatchNext (errorCbs : List Nat) (current route : Route) (v : JSValue) :
    List Event × Bool :=
  if v = JSValue.boolean false then
    (Event.ensureURL true ::
      abortEvents errorCbs (AbortErr.navFailure NavFailureType.aborted current route),
      false)
  else if isErrorV v then
    (Event.ensureURL true :: abortEvents errorCbs (mkThrown v), false)
  else if isRedirectV v then
    (abortEvents errorCbs (AbortErr.navFailure NavFailureType.redirected current route)
      ++ [redirectEvent v], false)
  else if v = JSValue.nullv then
    (abortEvents errorCbs AbortErr.typeError, false)
  else ([], true)

/-- A `next` value on which the pipeline proceeds to the following guard. -/
def proceedsV (v : JSValue) : Bool :=
  !(v = JSValue.boolean false : Bool) && !isErrorV v && !isRedirectV v &&
    !(v = JSValue.nullv : Bool)

/-- A guard behaviour that lets the pipeline proceed: the guard calls `next`
with a proceeding value. -/
def proceedsB : GuardBehavior → Bool
  | GuardBehavior.next v => proceedsV v
  | _ => false

/-- State threaded through a pipeline run: the number of pending-checks
performed so far (indexing `pendingAt`) and the event trace. -/
structure PipeState where
  stepIdx : Nat
  trace : List Event
deriving DecidableEq

/-- The `iterator(hook, next)` of `confirmTransition`: before running the
guard, compare `this.pending` (as observed at this check) with the in-flight
route and abort as `cancelled` on mismatch; otherwise invoke the guard and
interpret its behaviour — the value it passes to `next` through
`dispatchNext`, a thrown value through the `try`/`catch` as an abort, or a
suspension as no further progress in this run. -/
def iteratorStep (env : Nat → Route → Route → GuardBehavior)
    (pendingAt : Nat → Option Route) (current route : Route)
    (errorCbs : List Nat) (g : Nat) (s : PipeState) : PipeState × Bool :=
  if pendingAt s.stepIdx = Option.some route then
    match env g route current with
    | GuardBehavior.next v =>
      let d := dispatchNext errorCbs current route v
      (⟨s.stepIdx + 1, s.trace ++ Event.invoke g :: d.1⟩, d.2)
    | GuardBehavior.throwVal v =>
      (⟨s.stepIdx + 1, s.trace ++ Event.invoke g :: abortEvents errorCbs (mkThrown v)⟩,
        false)
    | GuardBehavior.suspend => (⟨s.stepIdx + 1, s.trace ++ [Event.invoke g]⟩, false)
  else
    (⟨s.stepIdx + 1,
      s.trace ++ abortEvents errorCbs
        (AbortErr.navFailure NavFailureType.cancelled current route)⟩, false)

/-- Modelled from the spec: the guard queue runner `runQueue` of
`src/util/async.js` is not among the provided sources; §4.4 of the spec:
execute the entries strictly in order, treat a null/absent entry as an
immediate pass-through, stop the remainder when a step does not proceed, and
invoke the completion callback exactly once on exhausting the queue.  This is
the synchronous rendering of the CPS runner: `iter` returns the successor
state and whether the step called its continuation. -/
def runQueueSync (iter : Nat → PipeState → PipeState × Bool) :
    List (Option Nat) → (PipeState → PipeState) → PipeState → PipeState
  | [], done, s => done s
  | Option.none :: rest, done, s => runQueueSync iter rest done s
  | Option.some g :: rest, done, s =>
    if (iter g s).2 = true then runQueueSync iter rest done (iter g s).1
    else (iter g s).1

/-! ## `confirmTransition` (`src/history/base.js` lines 139-247) -/

/-- Modelled from the spec: `isSameRoute(route, current)` of
`src/util/route.js` is not among the provided sources; §3 of the spec: two
routes are the same route iff `path`, `query`, `hash` and `params` are
deep-equal (the matched-chain conditions are separate conjuncts in the
source's duplicate check). -/
def isSameRoute (a b : Route) : Bool :=
  decide (a.path = b.path) && decide (a.query = b.query) &&
    decide (a.hash = b.hash) && decide (a.params = b.params)

/-- JavaScript array indexing `l[i]` with a possibly negative index:
`undefined` out of bounds. -/
def jsIndex (l : List RouteRecord) (i : Int) : Option RouteRecord :=
  if i < 0 then Option.none else l.get? i.toNat

/-- The duplicate check of `confirmTransition`:
`isSameRoute(route, current) && lastRouteIndex === lastCurrentIndex &&
route.matched[lastRouteIndex] === current.matched[lastCurrentIndex]` with
`lastRouteIndex = route.matched.length - 1` computed in JavaScript arithmetic. -/
def dupCheck (route current : Route) : Bool :=
  isSameRoute route current &&
    decide ((route.matched.length : Int) - 1 = (current.matched.length : Int) - 1) &&
    decide (jsIndex route.matched ((route.matched.length : Int) - 1) =
      jsIndex current.matched ((current.matched.length : Int) - 1))

/-- The engine state and registered hooks that `confirmTransition` reads: the
current route, the global error callbacks, and the globally registered
before-each and before-resolve hooks (`this.router.beforeHooks`,
`this.router.resolveHooks`). -/
structure Engine where
  current : Route
  errorCbs : List Nat
  beforeHooks : List (Option Nat)
  resolveHooks : List (Option Nat)

/-- The first guard queue of `confirmTransition` (lines 179-190): leave
guards of the deactivated records (reversed), the global before-each hooks,
update guards of the updated records, the per-record `beforeEnter`
configuration guards of the activated records, and the async view-resolution
step (`resolveAsyncComponents(activated)`, represented by the caller-chosen
tag `asyncTag`). -/
def mkQueue1 (h : Engine) (route : Route) (asyncTag : Nat) : List (Option Nat) :=
  extractLeaveGuards (resolveQueue h.current.matched route.matched).deactivated ++
    h.beforeHooks ++
    extractUpdateHooks (resolveQueue h.current.matched route.matched).updated ++
    (resolveQueue h.current.matched route.matched).activated.map
      (fun m : RouteRecord => m.beforeEnter) ++
    [Option.some asyncTag]

/-- The second guard queue (lines 231-232): enter guards of the activated
records followed by the global before-resolve hooks. -/
def mkQueue2 (h : Engine) (route : Route) : List (Option Nat) :=
  extractEnterGuards (resolveQueue h.current.matched route.matched).activated ++
    h.resolveHooks

/-- `confirmTransition(route, onComplete, onAbort)`: the duplicate check
aborts as `duplicated` after reconciling the URL; otherwise the first queue
runs under the iterator, then the second queue, then a final pending-check
guards the commit (`onComplete(route)`, recorded as `Event.complete`). -/
def confirmTransition (h : Engine) (env : Nat → Route → Route → GuardBehavior)
    (pendingAt : Nat → Option Route) (route : Route) (asyncTag : Nat) :
    List Event :=
  if dupCheck route h.current then
    Event.ensureURL false ::
      abortEvents h.errorCbs
        (AbortErr.navFailure NavFailureType.duplicated h.current route)
  else
    (runQueueSync (iteratorStep env pendingAt h.current route h.errorCbs)
      (mkQueue1 h route asyncTag)
      (fun s =>
        runQueueSync (iteratorStep env pendingAt h.current route h.errorCbs)
          (mkQueue2 h route)
          (fun s2 =>
            if pendingAt s2.stepIdx = Option.some route then
              ⟨s2.stepIdx, s2.trace ++ [Event.complete route]⟩
            else
              ⟨s2.stepIdx,
                s2.trace ++ abortEvents h.errorCbs
                  (AbortErr.navFailure NavFailureType.cancelled h.current route)⟩) s)
      ⟨0, []⟩).trace

/-! ## Pipeline execution lemmas -/

theorem dispatchNext_of_proceeds (cbs : List Nat) (c r : Route) (v : JSValue)
    (hv : proceedsV v = true) : dispatchNext cbs c r v = ([], true) := by
  cases v <;> simp_all [proceedsV, dispatchNext, isErrorV, isRedirectV]

theorem iteratorStep_proceeds (env : Nat → Route → Route → GuardBehavior)
    (pendingAt : Nat → Option Route) (current route : Route) (errorCbs : List Nat)
    (g : Nat) (s : PipeState)
    (hpend : pendingAt s.stepIdx = Option.some route)
    (hg : proceedsB (env g route current) = true) :
    iteratorStep env pendingAt current route errorCbs g s =
      (⟨s.stepIdx + 1, s.trace ++ [Event.invoke g]⟩, true) := by
  unfold iteratorStep
  rw [if_pos hpend]
  cases henv : env g route current with
  | next v =>
    rw [henv] at hg
    simp [dispatchNext_of_proceeds errorCbs current route v hg]
  | throwVal v => rw [henv] at hg; simp [proceedsB] at hg
  | suspend => rw [henv] at hg; simp [proceedsB] at hg

theorem iteratorStep_cancelled (env : Nat → Route → Route → GuardBehavior)
    (pendingAt : Nat → Option Route) (current route : Route) (errorCbs : List Nat)
    (g : Nat) (s : PipeState)
    (hpend : pendingAt s.stepIdx ≠ Option.some route) :
    iteratorStep env pendingAt current route errorCbs g s =
      (⟨s.stepIdx + 1,
        s.trace ++ abortEvents errorCbs
          (AbortErr.navFailure NavFailureType.cancelled current route)⟩, false) := by
  unfold iteratorStep
  rw [if_neg hpend]

theorem runQueueSync_all_proceed (env : Nat → Route → Route → GuardBehavior)
    (pendingAt : Nat → Option Route) (current route : Route) (errorCbs : List Nat)
    (q : List (Option Nat)) (done : PipeState → PipeState) (s : PipeState)
    (hp : ∀ j, s.stepIdx ≤ j → j < s.stepIdx + q.reduceOption.length →
      pendingAt j = Option.some route)
    (hg : ∀ g ∈ q.reduceOption, proceedsB (env g route current) = true) :
    runQueueSync (iteratorStep env pendingAt current route errorCbs) q done s =
      done ⟨s.stepIdx + q.reduceOption.length,
        s.trace ++ q.reduceOption.map Event.invoke⟩ := by
  induction q generalizing s with
  | nil => simp [runQueueSync, List.reduceOption]
  | cons o rest ih =>
    cases o with
    | none =>
      rw [runQueueSync]
      simp only [List.reduceOption_cons_of_none] at *
      exact ih s hp hg
    | some g =>
      simp only [List.reduceOption_cons_of_some] at *
      have hpend : pendingAt s.stepIdx = Option.some route := by
        refine hp s.stepIdx (Nat.le_refl _) ?_
        simp
      have hiter := iteratorStep_proceeds env pendingAt current route errorCbs g s
        hpend (hg g (by simp))
      rw [runQueueSync, hiter]
      simp only []
      have := ih ⟨s.stepIdx + 1, s.trace ++ [Event.invoke g]⟩
        (by
          intro j hj1 hj2
          refine hp j ?_ ?_ <;> simp at hj1 hj2 ⊢ <;> omega)
        (by intro g2 hg2; exact hg g2 (by simp [hg2]))
      rw [this]
      have harith : s.stepIdx + 1 + rest.reduceOption.length
          = s.stepIdx + (rest.reduceOption.length + 1) := by omega
      simp [harith]

theorem runQueueSync_cancelled (env : Nat → Route → Route → GuardBehavior)
    (pendingAt : Nat → Option Route) (current route : Route) (errorCbs : List Nat)
    (q : List (Option Nat)) (done : PipeState → PipeState) (s : PipeState) (k : Nat)
    (hg : ∀ g ∈ q.reduceOption, proceedsB (env g route current) = true)
    (hk : k < q.reduceOption.length)
    (hbefore : ∀ j, s.stepIdx ≤ j → j < s.stepIdx + k → pendingAt j = Option.some route)
    (hfail : pendingAt (s.stepIdx + k) ≠ Option.some route) :
    runQueueSync (iteratorStep env pendingAt current route errorCbs) q done s =
      ⟨s.stepIdx + k + 1,
        s.trace ++ (q.reduceOption.take k).map Event.invoke ++
          abortEvents errorCbs
            (AbortErr.navFailure NavFailureType.cancelled current route)⟩ := by
  induction q generalizing s k with
  | nil => simp [List.reduceOption] at hk
  | cons o rest ih =>
    cases o with
    | none =>
      rw [runQueueSync]
      simp only [List.reduceOption_cons_of_none] at *
      exact ih s k hg hk hbefore hfail
    | some g =>
      simp only [List.reduceOption_cons_of_some] at *
      cases k with
      | zero =>
        have hiter := iteratorStep_cancelled env pendingAt current route errorCbs g s
          (by simpa using hfail)
        rw [runQueueSync, hiter]
        simp
      | succ k2 =>
        have hpend : pendingAt s.stepIdx = Option.some route := by
          refine hbefore s.stepIdx (Nat.le_refl _) ?_
          omega
        have hiter := iteratorStep_proceeds env pendingAt current route errorCbs g s
          hpend (hg g (by simp))
        rw [runQueueSync, hiter]
        simp only []
        have := ih ⟨s.stepIdx + 1, s.trace ++ [Event.invoke g]⟩ k2
          (by intro g2 hg2; exact hg g2 (by simp [hg2]))
          (by simp only [List.length_cons] at hk; omega)
          (by
            intro j hj1 hj2
            refine hbefore j ?_ ?_ <;> simp at hj1 hj2 ⊢ <;> omega)
          (by
            simp only []
            have : s.stepIdx + 1 + k2 = s.stepIdx + (k2 + 1) := by omega
            rw [this]
            exact hfail)
        rw [this]
        have harith : s.stepIdx + 1 + k2 + 1 = s.stepIdx + (k2 + 1) + 1 := by omega
        simp [harith, List.take_succ_cons]

/-! ## Claim theorems about `confirmTransition` -/

/-- C1: for every call to `confirmTransition` whose first guard pipeline
succeeds (the duplicate check fails, no concurrent navigation reassigns
`pending`, and every guard of both queues proceeds), the guard steps are
assembled and executed in exactly this fixed order: leave guards of the
deactivated records (reversed), then the globally registered before-each
hooks, then update guards of the updated records, then the per-record
`beforeEnter` configuration guard of each activated record, then the async
view-resolution step; only after all of these succeed is a second queue run
consisting of the enter guards of the activated records followed by the
globally registered before-resolve hooks, after which the navigation
commits. -/
theorem confirmTransition_pipeline_order (h : Engine)
    (env : Nat → Route → Route → GuardBehavior) (route : Route) (asyncTag : Nat)
    (pendingAt : Nat → Option Route)
    (hdup : dupCheck route h.current = false)
    (hpend : ∀ j, pendingAt j = Option.some route)
    (hq1 : ∀ g ∈ (mkQueue1 h route asyncTag).reduceOption,
      proceedsB (env g route h.current) = true)
    (hq2 : ∀ g ∈ (mkQueue2 h route).reduceOption,
      proceedsB (env g route h.current) = true) :
    confirmTransition h env pendingAt route asyncTag =
      ((extractLeaveGuards (resolveQueue h.current.matched route.matched).deactivated ++
        h.beforeHooks ++
        extractUpdateHooks (resolveQueue h.current.matched route.matched).updated ++
        (resolveQueue h.current.matched route.matched).activated.map
          (fun m : RouteRecord => m.beforeEnter) ++
        [Option.some asyncTag]).reduceOption).map Event.invoke ++
      ((extractEnterGuards (resolveQueue h.current.matched route.matched).activated ++
        h.resolveHooks).reduceOption).map Event.invoke ++
      [Event.complete route] := by
  unfold confirmTransition
  rw [if_neg (by simp [hdup])]
  rw [runQueueSync_all_proceed env pendingAt h.current route h.errorCbs _ _ _
    (fun j _ _ => hpend j) hq1]
  simp only []
  rw [runQueueSync_all_proceed env pendingAt h.current route h.errorCbs _ _ _
    (fun j _ _ => hpend j) hq2]
  simp only []
  rw [if_pos (hpend _)]
  simp [mkQueue1, mkQueue2]

/-- A sample first record: one `default` slot with a `beforeRouteLeave` guard
(tag 10) and a mounted instance. -/
def recA : RouteRecord :=
  { tag := 0,
    components := [("default",
      { beforeRouteLeave := GuardSpec.one 10,
        beforeRouteUpdate := GuardSpec.noGuard,
        beforeRouteEnter := GuardSpec.noGuard })],
    instances := [("default", 100)],
    enteredCbs := [],
    beforeEnter := Option.none }

/-- A sample second record: one `default` slot with a `beforeRouteEnter`
guard (tag 20), no instance yet, and a `beforeEnter` configuration guard
(tag 30). -/
def recB : RouteRecord :=
  { tag := 1,
    components := [("default",
      { beforeRouteLeave := GuardSpec.noGuard,
        beforeRouteUpdate := GuardSpec.noGuard,
        beforeRouteEnter := GuardSpec.one 20 })],
    instances := [],
    enteredCbs := [],
    beforeEnter := Option.some 30 }

/-- A sample current route matching `recA`. -/
def routeA : Route :=
  { path := "/a", query := [], hash := "", params := [], name := Option.none,
    matched := [recA] }

/-- A sample target route matching `recB`. -/
def routeB : Route :=
  { path := "/b", query := [], hash := "", params := [], name := Option.none,
    matched := [recB] }

/-- A sample engine at `routeA` with one before-each hook (tag 40) and one
before-resolve hook (tag 50). -/
def engine0 : Engine :=
  { current := routeA, errorCbs := [], beforeHooks := [Option.some 40],
    resolveHooks := [Option.some 50] }

/-- An environment in which every guard passes the same value to `next`. -/
def envAll (v : JSValue) : Nat → Route → Route → GuardBehavior :=
  fun _ _ _ => GuardBehavior.next v

theorem confirmTransition_pipeline_order_witness :
    confirmTransition engine0 (envAll JSValue.undef)
        (fun _ => Option.some routeB) routeB 99 =
      ((extractLeaveGuards
          (resolveQueue engine0.current.matched routeB.matched).deactivated ++
        engine0.beforeHooks ++
        extractUpdateHooks
          (resolveQueue engine0.current.matched routeB.matched).updated ++
        (resolveQueue engine0.current.matched routeB.matched).activated.map
          (fun m : RouteRecord => m.beforeEnter) ++
        [Option.some 99]).reduceOption).map Event.invoke ++
      ((extractEnterGuards
          (resolveQueue engine0.current.matched routeB.matched).activated ++
        engine0.resolveHooks).reduceOption).map Event.invoke ++
      [Event.complete routeB] :=
  confirmTransition_pipeline_order engine0 (envAll JSValue.undef) routeB 99
    (fun _ => Option.some routeB) (by decide) (fun _ => rfl) (by decide) (by decide)

/-- C2: if a second navigation reassigns `pending` away from the in-flight
route before the k-th pending-check (the checks up to `k` saw the in-flight
route, the k-th does not), then none of the remaining guard steps execute:
the trace contains exactly the invocations of the first `k` guards followed
by an abort with a `cancelled` navigation failure, and no commit ever
happens — this covers both the per-guard check of the iterator and the final
check after the second queue (`k` equal to the total guard count). -/
theorem confirmTransition_cancelled_on_preemption (h : Engine)
    (env : Nat → Route → Route → GuardBehavior) (route : Route) (asyncTag : Nat)
    (pendingAt : Nat → Option Route) (k : Nat)
    (hdup : dupCheck route h.current = false)
    (hq1 : ∀ g ∈ (mkQueue1 h route asyncTag).reduceOption,
      proceedsB (env g route h.current) = true)
    (hq2 : ∀ g ∈ (mkQueue2 h route).reduceOption,
      proceedsB (env g route h.current) = true)
    (hk : k ≤ (mkQueue1 h route asyncTag).reduceOption.length +
      (mkQueue2 h route).reduceOption.length)
    (hbefore : ∀ j, j < k → pendingAt j = Option.some route)
    (hfail : pendingAt k ≠ Option.some route) :
    confirmTransition h env pendingAt route asyncTag =
      (((mkQueue1 h route asyncTag).reduceOption ++
        (mkQueue2 h route).reduceOption).take k).map Event.invoke ++
        abortEvents h.errorCbs
          (AbortErr.navFailure NavFailureType.cancelled h.current route) ∧
    Event.complete route ∉ confirmTransition h env pendingAt route asyncTag := by
  have hmain : confirmTransition h env pendingAt route asyncTag =
      (((mkQueue1 h route asyncTag).reduceOption ++
        (mkQueue2 h route).reduceOption).take k).map Event.invoke ++
        abortEvents h.errorCbs
          (AbortErr.navFailure NavFailureType.cancelled h.current route) := by
    unfold confirmTransition
    rw [if_neg (by simp [hdup])]
    rcases Nat.lt_or_ge k (mkQueue1 h route asyncTag).reduceOption.length with
      hlt | hge
    · rw [runQueueSync_cancelled env pendingAt h.current route h.errorCbs _ _ _ k
        hq1 hlt
        (by
          intro j h1 h2
          dsimp only at h2
          exact hbefore j (by omega))
        (by
          dsimp only
          rw [Nat.zero_add]
          exact hfail)]
      dsimp only
      rw [List.take_append_eq_append_take,
        Nat.sub_eq_zero_of_le (Nat.le_of_lt hlt)]
      simp
    · rw [runQueueSync_all_proceed env pendingAt h.current route h.errorCbs _ _ _
        (by
          intro j h1 h2
          dsimp only at h2
          exact hbefore j (by omega)) hq1]
      dsimp only
      rw [Nat.zero_add]
      rcases Nat.lt_or_ge (k - (mkQueue1 h route asyncTag).reduceOption.length)
        (mkQueue2 h route).reduceOption.length with hlt2 | hge2
      · rw [runQueueSync_cancelled env pendingAt h.current route h.errorCbs _ _ _
          (k - (mkQueue1 h route asyncTag).reduceOption.length) hq2 hlt2
          (by
            intro j h1 h2
            dsimp only at h1 h2
            exact hbefore j (by omega))
          (by
            dsimp only
            rw [Nat.add_sub_cancel' hge]
            exact hfail)]
        dsimp only
        rw [List.take_append_eq_append_take, List.take_of_length_le hge]
        simp
      · have hkeq : k = (mkQueue1 h route asyncTag).reduceOption.length +
            (mkQueue2 h route).reduceOption.length := by omega
        rw [runQueueSync_all_proceed env pendingAt h.current route h.errorCbs _ _ _
          (by
            intro j h1 h2
            dsimp only at h1 h2
            exact hbefore j (by omega)) hq2]
        dsimp only
        rw [if_neg (by rw [← hkeq]; exact hfail)]
        dsimp only
        rw [List.take_of_length_le (by rw [List.length_append]; omega)]
        simp
  refine ⟨hmain, ?_⟩
  rw [hmain]
  intro hmem
  rcases List.mem_append.mp hmem with hmem | hmem
  · rcases List.mem_map.mp hmem with ⟨g, _, hg⟩
    exact Event.noConfusion hg
  · exact complete_not_mem_abortEvents h.errorCbs _ route hmem

theorem confirmTransition_cancelled_on_preemption_witness :
    confirmTransition engine0 (envAll JSValue.undef)
        (fun j => if j < 2 then Option.some routeB else Option.some routeA)
        routeB 99 =
      (((mkQueue1 engine0 routeB 99).reduceOption ++
        (mkQueue2 engine0 routeB).reduceOption).take 2).map Event.invoke ++
        abortEvents engine0.errorCbs
          (AbortErr.navFailure NavFailureType.cancelled engine0.current routeB) ∧
    Event.complete routeB ∉
      confirmTransition engine0 (envAll JSValue.undef)
        (fun j => if j < 2 then Option.some routeB else Option.some routeA)
        routeB 99 :=
  confirmTransition_cancelled_on_preemption engine0 (envAll JSValue.undef)
    routeB 99
    (fun j => if j < 2 then Option.some routeB else Option.some routeA) 2
    (by decide) (by decide) (by decide) (by decide)
    (by decide) (by decide)

/-! ## Readiness bookkeeping (`transitionTo` lines 100-135 and `onReady`
lines 67-76 of `src/history/base.js`) -/

/-- The readiness part of the engine state: the `ready` flag and the
registered ready / ready-error callbacks. -/
structure ReadyState where
  ready : Bool
  readyCbs : List Nat
  readyErrorCbs : List Nat
deriving DecidableEq

/-- Outcome of one `confirmTransition` as seen by the two closures that
`transitionTo` installs: success with the committed route, or failure with
the `prev` route captured before the call and the delivered error. -/
inductive NavOutcome where
  | success (route : Route)
  | failure (prev : Route) (err : AbortErr)
deriving DecidableEq

/-- The readiness bookkeeping of `transitionTo`'s two closures: on success,
`if (!this.ready) { this.ready = true; this.readyCbs.forEach(cb => cb(route)) }`;
on failure, `if (err && !this.ready)` and then — unless the failure is a
`redirected` navigation failure and `prev` is the sentinel start route —
`this.ready = true` and flush `readyErrorCbs` with the error. -/
def readyStep (s : ReadyState) : NavOutcome → ReadyState × List Event
  | NavOutcome.success r =>
    if s.ready = false then
      ({ s with ready := true }, s.readyCbs.map fun c => Event.readyCb c r)
    else (s, [])
  | NavOutcome.failure prev err =>
    if errTruthy err = true ∧ s.ready = false then
      if isNavFailureTypeB err NavFailureType.redirected = false ∨ prev ≠ START then
        ({ s with ready := true },
          s.readyErrorCbs.map fun c => Event.readyErrorCb c err)
      else (s, [])
    else (s, [])

/-- A lifetime of the engine as a sequence of transition outcomes, folding
the readiness bookkeeping and accumulating the flushed callbacks. -/
def runReady : ReadyState → List NavOutcome → ReadyState × List Event
  | s, [] => (s, [])
  | s, o :: rest =>
    ((runReady (readyStep s o).1 rest).1,
      (readyStep s o).2 ++ (runReady (readyStep s o).1 rest).2)

theorem readyStep_absorbing (s : ReadyState) (o : NavOutcome)
    (hr : s.ready = true) : readyStep s o = (s, []) := by
  cases o <;> simp [readyStep, hr]

/-- C4 counterexample: the claim says that on a failed transition while the
engine is not yet ready, `ready` flips and `readyErrorCbs` are flushed with
the error, with the redirected-from-START case as the only exception.  But
the source guards the whole block with `if (err && !this.ready)`: a guard
that throws a falsy value (`throw null`) reaches `abort(e)` through the
per-step catch and is delivered to the failure closure with a falsy `err`,
so nothing flips and nothing is flushed even though the engine is not ready,
the failure is not a `redirected` navigation failure, and the navigation did
not start from the sentinel start route. -/
theorem readyStep_falsy_error_counterexample :
    readyStep ⟨false, [1], [2]⟩
        (NavOutcome.failure routeA (AbortErr.thrownOther JSValue.nullv)) =
      (⟨false, [1], [2]⟩, []) ∧
    errTruthy (AbortErr.thrownOther JSValue.nullv) = false ∧
    isNavFailureTypeB (AbortErr.thrownOther JSValue.nullv)
      NavFailureType.redirected = false ∧
    routeA ≠ START := by
  refine ⟨rfl, rfl, rfl, ?_⟩
  intro hcontra
  exact absurd (congrArg Route.path hcontra) (by decide)

/-- C4 (amended): the `ready` flag flips to true and the queued callbacks are
flushed at most once over the lifetime of the engine: a ready engine is
absorbing (no later outcome flips anything or flushes any callback, so a
step that flips `ready` is the last one to emit events); a success while not
ready flips `ready` and flushes `readyCbs`; a failure while not ready flips
`ready` and flushes `readyErrorCbs` with the error, provided the delivered
error value is truthy (the `err &&` test: a falsy thrown value flips and
flushes nothing) — and except when the failure is a `redirected` navigation
failure and the navigation started from the sentinel start route, in which
case nothing flips and readiness is left to the navigation the redirect
produces. -/
theorem ready_flips_once :
    (∀ s outs, s.ready = true → runReady s outs = (s, [])) ∧
    (∀ s o outs, (readyStep s o).1.ready = true →
      runReady s (o :: outs) = ((readyStep s o).1, (readyStep s o).2)) ∧
    (∀ s r, s.ready = false →
      readyStep s (NavOutcome.success r) =
        ({ s with ready := true }, s.readyCbs.map fun c => Event.readyCb c r)) ∧
    (∀ s p e, s.ready = false → errTruthy e = true →
      (isNavFailureTypeB e NavFailureType.redirected = false ∨ p ≠ START) →
      readyStep s (NavOutcome.failure p e) =
        ({ s with ready := true },
          s.readyErrorCbs.map fun c => Event.readyErrorCb c e)) ∧
    (∀ s p e, isNavFailureTypeB e NavFailureType.redirected = true → p = START →
      readyStep s (NavOutcome.failure p e) = (s, [])) ∧
    (∀ s p e, errTruthy e = false →
      readyStep s (NavOutcome.failure p e) = (s, [])) := by
  have habs : ∀ s outs, s.ready = true → runReady s outs = (s, []) := by
    intro s outs hr
    induction outs with
    | nil => rfl
    | cons o rest ih =>
      rw [runReady, readyStep_absorbing s o hr]
      simpa using ih
  refine ⟨habs, ?_, ?_, ?_, ?_, ?_⟩
  · intro s o outs hflip
    rw [runReady, habs (readyStep s o).1 outs hflip]
    simp
  · intro s r hr
    simp [readyStep, hr]
  · intro s p e hr he hcond
    rw [readyStep, if_pos ⟨he, hr⟩, if_pos hcond]
  · intro s p e hred hp
    rcases hdec : decide (errTruthy e = true ∧ s.ready = false) with _ | _
    · rw [readyStep, if_neg (of_decide_eq_false hdec)]
    · rw [readyStep, if_pos (of_decide_eq_true hdec),
        if_neg (by simp [hred, hp])]
  · intro s p e hfalsy
    rw [readyStep, if_neg (by simp [hfalsy])]

theorem ready_flips_once_witness :
    runReady ⟨true, [1], [2]⟩ [NavOutcome.success routeB] = (⟨true, [1], [2]⟩, []) ∧
    runReady ⟨false, [1], [2]⟩
        [NavOutcome.success routeB, NavOutcome.success routeA] =
      (⟨true, [1], [2]⟩, [Event.readyCb 1 routeB]) ∧
    readyStep ⟨false, [1], [2]⟩ (NavOutcome.success routeB) =
      (⟨true, [1], [2]⟩, [Event.readyCb 1 routeB]) ∧
    readyStep ⟨false, [1], [2]⟩ (NavOutcome.failure routeA (AbortErr.jsError 7)) =
      (⟨true, [1], [2]⟩, [Event.readyErrorCb 2 (AbortErr.jsError 7)]) ∧
    readyStep ⟨false, [1], [2]⟩
        (NavOutcome.failure START
          (AbortErr.navFailure NavFailureType.redirected START routeB)) =
      (⟨false, [1], [2]⟩, []) ∧
    readyStep ⟨false, [1], [2]⟩
        (NavOutcome.failure routeB (AbortErr.thrownOther JSValue.undef)) =
      (⟨false, [1], [2]⟩, []) :=
  ⟨ready_flips_once.1 ⟨true, [1], [2]⟩ [NavOutcome.success routeB] rfl,
   ready_flips_once.2.1 ⟨false, [1], [2]⟩ (NavOutcome.success routeB)
     [NavOutcome.success routeA] (by decide),
   ready_flips_once.2.2.1 ⟨false, [1], [2]⟩ routeB rfl,
   ready_flips_once.2.2.2.1 ⟨false, [1], [2]⟩ routeA (AbortErr.jsError 7) rfl rfl
     (Or.inl rfl),
   ready_flips_once.2.2.2.2.1 ⟨false, [1], [2]⟩ START
     (AbortErr.navFailure NavFailureType.redirected START routeB) rfl rfl,
   ready_flips_once.2.2.2.2.2 ⟨false, [1], [2]⟩ routeB
     (AbortErr.thrownOther JSValue.undef) rfl⟩

/-- `onReady(cb, errorCb)` of the `History` class. -/
def onReady (s : ReadyState) (cb : Nat) (errorCb : Option Nat) :
    ReadyState × List Event :=
  if s.ready then (s, [Event.callCbNoArgs cb])
  else
    ({ s with readyCbs := s.readyCbs ++ [cb],
              readyErrorCbs := s.readyErrorCbs ++ errorCb.toList }, [])

/-- C10: when the engine is already ready, `onReady` invokes `cb` immediately
with no arguments and stores nothing; otherwise it appends `cb` to
`readyCbs` and, when given, `errorCb` to `readyErrorCbs`, invoking nothing. -/
theorem onReady_spec :
    (∀ s cb ecb, s.ready = true →
      onReady s cb ecb = (s, [Event.callCbNoArgs cb])) ∧
    (∀ s cb ecb, s.ready = false →
      onReady s cb (Option.some ecb) =
        ({ s with readyCbs := s.readyCbs ++ [cb],
                  readyErrorCbs := s.readyErrorCbs ++ [ecb] }, [])) ∧
    (∀ s cb, s.ready = false →
      onReady s cb Option.none =
        ({ s with readyCbs := s.readyCbs ++ [cb],
                  readyErrorCbs := s.readyErrorCbs }, [])) := by
  refine ⟨?_, ?_, ?_⟩
  · intro s cb ecb hr
    simp [onReady, hr]
  · intro s cb ecb hr
    simp [onReady, hr, Option.toList]
  · intro s cb hr
    simp [onReady, hr, Option.toList]

theorem onReady_spec_witness :
    onReady ⟨true, [], []⟩ 5 (Option.some 6) =
      (⟨true, [], []⟩, [Event.callCbNoArgs 5]) ∧
    onReady ⟨false, [1], [2]⟩ 5 (Option.some 6) =
      (⟨false, [1, 5], [2, 6]⟩, []) ∧
    onReady ⟨false, [1], [2]⟩ 5 Option.none = (⟨false, [1, 5], [2]⟩, []) :=
  ⟨onReady_spec.1 ⟨true, [], []⟩ 5 (Option.some 6) rfl,
   onReady_spec.2.1 ⟨false, [1], [2]⟩ 5 6 rfl,
   onReady_spec.2.2 ⟨false, [1], [2]⟩ 5 rfl⟩

/-! ## Guard `next` outcome mapping and abort delivery -/

/-- C3 counterexample: the claim maps every value other than `false`, an
`Error`, and a string/location redirect target to "proceed to the next
guard", but `next(null)` does not proceed: `typeof null` is `'object'`, so
the redirect test reads `to.path`, which raises a `TypeError`; the per-step
`try`/`catch` converts it into an abort, so the step does not proceed and
the abort is delivered (here logged, with no error callbacks registered,
then passed to `onAbort`). -/
theorem dispatchNext_null_counterexample :
    (dispatchNext [] routeA routeB JSValue.nullv).2 = false ∧
    dispatchNext [] routeA routeB JSValue.nullv =
      ([Event.consoleError AbortErr.typeError, Event.onAbort AbortErr.typeError],
        false) := by
  exact ⟨rfl, rfl⟩

/-- C3 (amended): the value passed to a guard's `next` callback is mapped as
follows — `false` reconciles the visible location (forced push) and aborts
with an `aborted` failure; an `Error` value reconciles and aborts with that
error; a string, or an object whose `path` or `name` is a string, aborts with
a `redirected` failure followed immediately by exactly one `push` (or
`replace`, when the redirect object's `replace` flag is set) to the new
target; `null` raises a `TypeError` on the `to.path` read, aborting the
navigation with that error instead of proceeding; any other value proceeds
to the next guard. -/
theorem dispatchNext_outcome_map :
    (∀ cbs c r, dispatchNext cbs c r (JSValue.boolean false) =
      (Event.ensureURL true ::
        abortEvents cbs (AbortErr.navFailure NavFailureType.aborted c r),
        false)) ∧
    (∀ cbs c r t, dispatchNext cbs c r (JSValue.error t) =
      (Event.ensureURL true :: abortEvents cbs (AbortErr.jsError t), false)) ∧
    (∀ cbs c r s, dispatchNext cbs c r (JSValue.str s) =
      (abortEvents cbs (AbortErr.navFailure NavFailureType.redirected c r) ++
        [Event.push (JSValue.str s)], false)) ∧
    (∀ cbs c r p n rep, (p.isSome || n.isSome) = true →
      dispatchNext cbs c r (JSValue.locObj p n rep) =
      (abortEvents cbs (AbortErr.navFailure NavFailureType.redirected c r) ++
        [if rep then Event.replace (JSValue.locObj p n rep)
         else Event.push (JSValue.locObj p n rep)], false)) ∧
    (∀ cbs c r, dispatchNext cbs c r JSValue.nullv =
      (abortEvents cbs AbortErr.typeError, false)) ∧
    (∀ cbs c r v, proceedsV v = true → dispatchNext cbs c r v = ([], true)) := by
  refine ⟨?_, ?_, ?_, ?_, ?_, ?_⟩
  · intro cbs c r
    simp [dispatchNext]
  · intro cbs c r t
    simp [dispatchNext, isErrorV, mkThrown]
  · intro cbs c r s
    simp [dispatchNext, isErrorV, isRedirectV, redirectEvent]
  · intro cbs c r p n rep hred
    cases rep <;>
      simp [dispatchNext, isErrorV, isRedirectV, redirectEvent, hred]
  · intro cbs c r
    simp [dispatchNext, isErrorV, isRedirectV]
  · intro cbs c r v hv
    exact dispatchNext_of_proceeds cbs c r v hv

theorem dispatchNext_outcome_map_witness :
    dispatchNext [] routeA routeB
        (JSValue.locObj (Option.some "/x") Option.none false) =
      (abortEvents [] (AbortErr.navFailure NavFailureType.redirected routeA routeB)
        ++ [Event.push (JSValue.locObj (Option.some "/x") Option.none false)],
        false) ∧
    dispatchNext [] routeA routeB JSValue.undef = ([], true) :=
  ⟨by
    have h := dispatchNext_outcome_map.2.2.2.1 [] routeA routeB
      (Option.some "/x") Option.none false (by decide)
    simpa using h,
   dispatchNext_outcome_map.2.2.2.2.2 [] routeA routeB JSValue.undef (by decide)⟩

/-- C8: every abort delivers the failure value to the `onAbort` callback of
the triggering call (it is always the last emitted event); a navigation
failure of any of the four kinds is never passed to the registered error
callbacks; a genuine `Error` value that is not a navigation failure is
additionally delivered to every registered error callback in registration
order, or logged to the console when none are registered. -/
theorem abort_failure_delivery :
    (∀ cbs t r1 r2, abortEvents cbs (AbortErr.navFailure t r1 r2) =
      [Event.onAbort (AbortErr.navFailure t r1 r2)]) ∧
    (∀ cbs err, isNavigationFailureB err = false → isErrorA err = true →
      cbs ≠ [] →
      abortEvents cbs err =
        cbs.map (fun c => Event.callErrorCb c err) ++ [Event.onAbort err]) ∧
    (∀ err, isNavigationFailureB err = false → isErrorA err = true →
      abortEvents [] err = [Event.consoleError err, Event.onAbort err]) ∧
    (∀ cbs err, (abortEvents cbs err).getLast? =
      Option.some (Event.onAbort err)) := by
  refine ⟨?_, ?_, ?_, ?_⟩
  · intro cbs t r1 r2
    simp [abortEvents, isNavigationFailureB]
  · intro cbs err h1 h2 h3
    simp [abortEvents, h1, h2, h3]
  · intro err h1 h2
    simp [abortEvents, h1, h2]
  · intro cbs err
    unfold abortEvents
    rw [List.getLast?_concat]

theorem abort_failure_delivery_witness :
    abortEvents [1, 2]
        (AbortErr.navFailure NavFailureType.cancelled routeA routeB) =
      [Event.onAbort (AbortErr.navFailure NavFailureType.cancelled routeA routeB)] ∧
    abortEvents [1, 2] (AbortErr.jsError 7) =
      [Event.callErrorCb 1 (AbortErr.jsError 7),
       Event.callErrorCb 2 (AbortErr.jsError 7),
       Event.onAbort (AbortErr.jsError 7)] ∧
    abortEvents [] (AbortErr.jsError 7) =
      [Event.consoleError (AbortErr.jsError 7),
       Event.onAbort (AbortErr.jsError 7)] ∧
    (abortEvents [1, 2] (AbortErr.jsError 7)).getLast? =
      Option.some (Event.onAbort (AbortErr.jsError 7)) :=
  ⟨abort_failure_delivery.1 [1, 2] NavFailureType.cancelled routeA routeB,
   by
    have h := abort_failure_delivery.2.1 [1, 2] (AbortErr.jsError 7) rfl rfl
      (by decide)
    simpa using h,
   abort_failure_delivery.2.2.1 (AbortErr.jsError 7) rfl rfl,
   abort_failure_delivery.2.2.2 [1, 2] (AbortErr.jsError 7)⟩

/-! ## The enter-guard wrapper claim -/

theorem lookup_pushEnteredCb (l : List (String × List Nat)) (key : String)
    (t : Nat) :
    (pushEnteredCb l key t).lookup key =
      Option.some (((l.lookup key).getD []) ++ [t]) := by
  induction l with
  | nil => simp [pushEnteredCb]
  | cons p rest ih =>
    rcases p with ⟨k, ts⟩
    by_cases hk : k = key
    · subst hk
      simp [pushEnteredCb]
    · simp [pushEnteredCb, hk, ih, List.lookup,
        beq_false_of_ne (Ne.symm hk)]

/-- C9: the `bindEnterGuard` wrapper replaces the guard's `next` with a
callback that queues any function value onto the slot's `enteredCbs` list of
the record (creating the list when absent, appending at the end otherwise)
and forwards the very same value to the pipeline's `next`; a function value
is a proceeding `next` value, so the navigation proceeds. -/
theorem enterGuardCb_queues_and_forwards (m : RouteRecord) (key : String)
    (t : Nat) (v : JSValue) (cbs : List Nat) (c r : Route) :
    ((enterGuardCb m key (JSValue.func t)).1.enteredCbs.lookup key =
      Option.some (((m.enteredCbs.lookup key).getD []) ++ [t])) ∧
    (enterGuardCb m key v).2 = v ∧
    dispatchNext cbs c r (JSValue.func t) = ([], true) := by
  refine ⟨?_, ?_, ?_⟩
  · simp only [enterGuardCb]
    exact lookup_pushEnteredCb m.enteredCbs key t
  · cases v <;> rfl
  · simp [dispatchNext, isErrorV, isRedirectV]

/-! ## Async view resolution (`resolveAsyncComponents`,
`src/util/resolve-components.js` lines 12-77, with `once` lines 117-124)

The returned step closes over per-slot `once`-wrapped `resolve` and `reject`
callbacks, a `pending` counter initialised to the number of pending factory
slots, an `error` cell, and the pipeline's `next`.  The machine below runs
the step: the synchronous setup phase counts the factory slots (invoking the
factories), and each later callback invocation is an event (`res`/`rej` of a
slot); the replacement of the slot's binding by the resolved definition has
no effect on the calls to `next` and is not tracked. -/

/-- A view-slot binding as `resolveAsyncComponents` sees it: a resolved
definition, or a pending async factory (`typeof def === 'function'` with no
`cid`). -/
inductive ViewBinding where
  | comp (c : ComponentDef)
  | factory (tag : Nat)
deriving DecidableEq

/-- A route record as consumed by `resolveAsyncComponents`: its view-slot
bindings. -/
structure RouteRecordF where
  components : List (String × ViewBinding)
deriving DecidableEq

/-- The `typeof def === 'function' && def.cid === undefined` test. -/
def isAsyncBinding : ViewBinding → Bool
  | ViewBinding.factory _ => true
  | ViewBinding.comp _ => false

/-- Number of pending factory slots visited by `flatMapComponents`: the final
value of the `pending` counter after the synchronous setup loop. -/
def countAsyncSlots (matched : List RouteRecordF) : Nat :=
  ((matched.map fun m =>
    m.components.filter fun kc => isAsyncBinding kc.2).flatten).length

/-- The error stored and passed to `next` by `reject`: the reason itself when
it is an `Error`, otherwise a fresh `Error` wrapping the reason
(`new Error(msg)`). -/
inductive ResolveErr where
  | raw (tag : Nat)
  | wrapped (reason : JSValue)
deriving DecidableEq

/-- `error = isError(reason) ? reason : new Error(msg)`. -/
def mkResolveErr : JSValue → ResolveErr
  | JSValue.error t => ResolveErr.raw t
  | v => ResolveErr.wrapped v

/-- State of one run of the async view-resolution step: the `pending`
counter, the `error` cell, which slots already had their `once`-wrapped
`resolve` (respectively `reject`) consumed, and the accumulated calls to the
pipeline's `next` (`Option.none` is `next()`, `Option.some e` is
`next(error)`). -/
structure RACState where
  pending : Int
  error : Option ResolveErr
  resolveCalled : List Nat
  rejectCalled : List Nat
  nextCalls : List (Option ResolveErr)
deriving DecidableEq

/-- A callback invocation arriving at the step: slot `slot` resolves with a
value, or rejects with a reason. -/
inductive RACEvent where
  | res (slot : Nat) (v : JSValue)
  | rej (slot : Nat) (reason : JSValue)
deriving DecidableEq

/-- One callback invocation.  `resolve` (once per slot): decrement `pending`
and call `next()` when it reaches zero — with no error check.  `reject` (once
per slot): when `error` is not yet set, store the (possibly wrapped) error
and call `next(error)`; otherwise do nothing further. -/
def racStep (s : RACState) : RACEvent → RACState
  | RACEvent.res k _ =>
    if k ∈ s.resolveCalled then s
    else
      { s with resolveCalled := k :: s.resolveCalled,
               pending := s.pending - 1,
               nextCalls := s.nextCalls ++
                 (if s.pending - 1 ≤ 0 then [Option.none] else []) }
  | RACEvent.rej k reason =>
    if k ∈ s.rejectCalled then s
    else
      match s.error with
      | Option.some _ => { s with rejectCalled := k :: s.rejectCalled }
      | Option.none =>
        { s with rejectCalled := k :: s.rejectCalled,
                 error := Option.some (mkResolveErr reason),
                 nextCalls := s.nextCalls ++ [Option.some (mkResolveErr reason)] }

/-- State after the synchronous setup phase over `n` pending factory slots:
`pending = n`, no error, and — when there is no async slot (`!hasAsync`) — a
single synchronous `next()`. -/
def racInit (n : Nat) : RACState :=
  { pending := (n : Int), error := Option.none, resolveCalled := [],
    rejectCalled := [],
    nextCalls := if n = 0 then [Option.none] else [] }

/-- Run the async view-resolution step over the activated records and a
schedule of callback invocations. -/
def resolveAsyncRun (matched : List RouteRecordF) (events : List RACEvent) :
    RACState :=
  events.foldl racStep (racInit (countAsyncSlots matched))

/-- C7 counterexample: one activated record with one pending factory slot;
the factory rejects first (the step fails: `next(error)` with the wrapped
reason), then resolves.  The resolution arriving after the failure is NOT
ignored: `resolve` has its own one-shot guard and no error check, so it
decrements the counter to zero and invokes `next()` a second time — the
claim says every resolution or rejection after the failure is ignored and
`next` is never invoked again. -/
theorem resolveAsync_after_failure_counterexample :
    (resolveAsyncRun [{ components := [("default", ViewBinding.factory 0)] }]
      [RACEvent.rej 0 (JSValue.obj 3), RACEvent.res 0 (JSValue.obj 4)]).nextCalls
      = [Option.some (ResolveErr.wrapped (JSValue.obj 3)), Option.none] ∧
    (resolveAsyncRun [{ components := [("default", ViewBinding.factory 0)] }]
      [RACEvent.rej 0 (JSValue.obj 3), RACEvent.res 0 (JSValue.obj 4)]).nextCalls.length
      = 2 := by
  exact ⟨rfl, rfl⟩

/-- C7 (amended): with no pending factory slot the step calls `next()`
synchronously; a first resolution of a slot decrements the counter and calls
`next()` exactly when the counter reaches zero (independently of the error
cell, so a resolution arriving after a failure still invokes `next()` at
zero); a first rejection of a slot while no error is stored sets the error
(wrapping a non-`Error` reason in an `Error`) and fails the step by calling
`next` with it; rejections arriving once an error is stored add no call to
`next`; and repeated resolutions or rejections of the same slot are ignored
by the one-shot guards. -/
theorem resolveAsync_step_spec :
    (∀ matched, countAsyncSlots matched = 0 →
      (resolveAsyncRun matched []).nextCalls = [Option.none]) ∧
    (∀ s k v, k ∉ s.resolveCalled →
      racStep s (RACEvent.res k v) =
        { s with resolveCalled := k :: s.resolveCalled,
                 pending := s.pending - 1,
                 nextCalls := s.nextCalls ++
                   (if s.pending - 1 ≤ 0 then [Option.none] else []) }) ∧
    (∀ s k reason, k ∉ s.rejectCalled → s.error = Option.none →
      racStep s (RACEvent.rej k reason) =
        { s with rejectCalled := k :: s.rejectCalled,
                 error := Option.some (mkResolveErr reason),
                 nextCalls := s.nextCalls ++ [Option.some (mkResolveErr reason)] }) ∧
    (∀ s k reason e, s.error = Option.some e →
      (racStep s (RACEvent.rej k reason)).nextCalls = s.nextCalls) ∧
    (∀ s k v, k ∈ s.resolveCalled → racStep s (RACEvent.res k v) = s) ∧
    (∀ s k reason, k ∈ s.rejectCalled → racStep s (RACEvent.rej k reason) = s) ∧
    (∀ t, mkResolveErr (JSValue.error t) = ResolveErr.raw t) ∧
    (∀ str, mkResolveErr (JSValue.str str) =
      ResolveErr.wrapped (JSValue.str str)) := by
  refine ⟨?_, ?_, ?_, ?_, ?_, ?_, ?_, ?_⟩
  · intro matched hzero
    simp [resolveAsyncRun, racInit, hzero]
  · intro s k v hk
    simp [racStep, hk]
  · intro s k reason hk herr
    simp [racStep, hk, herr]
  · intro s k reason e herr
    by_cases hk : k ∈ s.rejectCalled
    · simp [racStep, hk]
    · simp [racStep, hk, herr]
  · intro s k v hk
    simp [racStep, hk]
  · intro s k reason hk
    simp [racStep, hk]
  · intro t
    rfl
  · intro str
    rfl

theorem resolveAsync_step_spec_witness :
    (resolveAsyncRun [{ components := [("default", ViewBinding.comp
      { beforeRouteLeave := GuardSpec.noGuard,
        beforeRouteUpdate := GuardSpec.noGuard,
        beforeRouteEnter := GuardSpec.noGuard })] }] []).nextCalls =
      [Option.none] ∧
    racStep ⟨2, Option.none, [], [], []⟩ (RACEvent.res 0 (JSValue.obj 4)) =
      ⟨1, Option.none, [0], [], []⟩ ∧
    racStep ⟨1, Option.none, [], [], []⟩ (RACEvent.rej 0 (JSValue.obj 3)) =
      ⟨1, Option.some (ResolveErr.wrapped (JSValue.obj 3)), [], [0],
        [Option.some (ResolveErr.wrapped (JSValue.obj 3))]⟩ ∧
    (racStep ⟨1, Option.some (ResolveErr.raw 5), [], [0], []⟩
      (RACEvent.rej 1 (JSValue.obj 3))).nextCalls = [] ∧
    racStep ⟨1, Option.none, [0], [], []⟩ (RACEvent.res 0 (JSValue.obj 4)) =
      ⟨1, Option.none, [0], [], []⟩ ∧
    racStep ⟨1, Option.none, [], [0], []⟩ (RACEvent.rej 0 (JSValue.obj 3)) =
      ⟨1, Option.none, [], [0], []⟩ ∧
    mkResolveErr (JSValue.error 9) = ResolveErr.raw 9 ∧
    mkResolveErr (JSValue.str "boom") = ResolveErr.wrapped (JSValue.str "boom") :=
  ⟨resolveAsync_step_spec.1 _ (by decide),
   by
    have h := resolveAsync_step_spec.2.1 ⟨2, Option.none, [], [], []⟩ 0
      (JSValue.obj 4) (by decide)
    simpa using h,
   by
    have h := resolveAsync_step_spec.2.2.1 ⟨1, Option.none, [], [], []⟩ 0
      (JSValue.obj 3) (by decide) rfl
    simpa using h,
   resolveAsync_step_spec.2.2.2.1 ⟨1, Option.some (ResolveErr.raw 5), [], [0], []⟩
     1 (JSValue.obj 3) (ResolveErr.raw 5) rfl,
   resolveAsync_step_spec.2.2.2.2.1 ⟨1, Option.none, [0], [], []⟩ 0
     (JSValue.obj 4) (by decide),
   resolveAsync_step_spec.2.2.2.2.2.1 ⟨1, Option.none, [], [0], []⟩ 0
     (JSValue.obj 3) (by decide),
   resolveAsync_step_spec.2.2.2.2.2.2.1 9,
   resolveAsync_step_spec.2.2.2.2.2.2.2 "boom"⟩

end VueRouter
